import Mathlib

/-!
# Verification of the MindBalance MHS model (`src/app.py`)

A shallow embedding, over `ℚ`, of the computational core of `app.py`:
the per-feature normalizers (`normalize_positive`, `normalize_negative`,
`normalize_sleep`), the fixed weight table `FEATURE_WEIGHTS`, the weighted
composite score `mhs_score`, the tier classification of the score, and the
threshold rule engine that builds the `recommendations` list.

Python reals are modelled as rationals; `np.clip(t, 0, 1)` is `clip01`;
the `if/elif` chain of `normalize_sleep`, which falls through to `None`
when no branch matches, returns `Option ℚ`.
-/

namespace MindBalance

/-- `np.clip(t, 0, 1)`: clamp a value into the unit interval. -/
def clip01 (t : ℚ) : ℚ := if t < 0 then 0 else if 1 < t then 1 else t

/-- `normalize_positive(x, min_val, max_val)` from `app.py` lines 9–11:
`np.clip((x - min_val) / (max_val - min_val), 0, 1)`. -/
def normalize_positive (x min_val max_val : ℚ) : ℚ :=
  clip01 ((x - min_val) / (max_val - min_val))

/-- `normalize_negative(x, min_val, max_val)` from `app.py` lines 13–15:
`np.clip(1 - (x - min_val) / (max_val - min_val), 0, 1)`. -/
def normalize_negative (x min_val max_val : ℚ) : ℚ :=
  clip01 (1 - (x - min_val) / (max_val - min_val))

/-- `normalize_sleep(x)` from `app.py` lines 17–26. The Python `if/elif`
chain has no `else`, so a value matching no branch would yield `None`;
the embedding mirrors that with `Option ℚ` and a final `none`. -/
def normalize_sleep (x : ℚ) : Option ℚ :=
  if x < 4 ∨ 12 < x then some 0
  else if 4 ≤ x ∧ x < 7 then some ((x - 4) / 3)
  else if 7 ≤ x ∧ x ≤ 9 then some 1
  else if 9 < x ∧ x ≤ 12 then some (1 - (x - 9) / 3)
  else none

/-- The piecewise sleep normalization as the spec words it (§4.1):
0 for `x < 4` or `x > 12`; `(x-4)/3` for `4 ≤ x < 7`; 1 for `7 ≤ x ≤ 9`;
`1 - (x-9)/3` for `9 < x ≤ 12`. Total by construction. -/
def sleepSpec (x : ℚ) : ℚ :=
  if x < 4 ∨ 12 < x then 0
  else if x < 7 then (x - 4) / 3
  else if x ≤ 9 then 1
  else 1 - (x - 9) / 3

/-- `FEATURE_WEIGHTS` from `app.py` lines 29–41, in source order. -/
def FEATURE_WEIGHTS : List (String × ℚ) :=
  [("Sleep_Hours", 0.1),
   ("Daily_Steps", 0.1),
   ("Exercise_Frequency", 0.1),
   ("Exercise_Duration", 0.1),
   ("Diet_Quality", 0.1),
   ("Social_Interaction", 0.1),
   ("Happiness_Level", 0.1),
   ("Screen_Time_Hours", 0.1),
   ("Stress_Level", 0.1),
   ("Anxiety_Level", 0.05),
   ("Depression_Level", 0.05)]

/-- `FEATURE_WEIGHTS[key]` as used in the score expression; every key the
program looks up is present, so the `0` default is never taken. -/
def weight (key : String) : ℚ := ((FEATURE_WEIGHTS.lookup key).getD 0)

/-- One batch of raw inputs, `app.py` lines 58–74. The UI widgets bound the
numeric fields (e.g. the sleep slider runs 0.0–12.0) but the core never
re-checks those ranges, so the fields are unconstrained rationals here.
`age`, `gender`, `occupation` and `exercise_type` are collected by the form
but never read by the score or recommendation computations. -/
structure Inputs where
  age : ℚ
  gender : String
  occupation : String
  sleep_hours : ℚ
  daily_steps : ℚ
  diet_quality : ℚ
  social_interaction : ℚ
  exercise_frequency : ℚ
  exercise_duration : ℚ
  exercise_type : String
  screen_time : ℚ
  stress_level : ℚ
  anxiety_level : ℚ
  depression_level : ℚ
  happiness_level : ℚ

/-- The score computation, `app.py` lines 82–109: normalize each of the
eleven scored features, take the weighted sum, multiply by 100. `none`
would propagate a `None` from `normalize_sleep` (where Python would crash
on `None * weight`); it never occurs. -/
def mhs_score (i : Inputs) : Option ℚ :=
  match normalize_sleep i.sleep_hours with
  | none => none
  | some s_sleep =>
    let s_steps := normalize_positive i.daily_steps 0 30000
    let s_exfreq := normalize_positive i.exercise_frequency 0 7
    let s_exdur := normalize_positive i.exercise_duration 0 180
    let s_diet := normalize_positive i.diet_quality 1 5
    let s_social := normalize_positive i.social_interaction 0 20
    let s_happy := normalize_positive i.happiness_level 1 10
    let s_screen := normalize_negative i.screen_time 0 12
    let s_stress := normalize_negative i.stress_level 1 10
    let s_anxiety := normalize_negative i.anxiety_level 1 10
    let s_depression := normalize_negative i.depression_level 1 10
    let score_norm :=
      s_sleep * weight "Sleep_Hours" +
      s_steps * weight "Daily_Steps" +
      s_exfreq * weight "Exercise_Frequency" +
      s_exdur * weight "Exercise_Duration" +
      s_diet * weight "Diet_Quality" +
      s_social * weight "Social_Interaction" +
      s_happy * weight "Happiness_Level" +
      s_screen * weight "Screen_Time_Hours" +
      s_stress * weight "Stress_Level" +
      s_anxiety * weight "Anxiety_Level" +
      s_depression * weight "Depression_Level"
    some (100 * score_norm)

/-- The three result bands of `app.py` lines 117–123. -/
inductive Tier where
  | favorable
  | fair
  | concerning
deriving DecidableEq

/-- The `if mhs_score >= 75 / elif mhs_score >= 50 / else` chain,
`app.py` lines 117–123. -/
def tier (s : ℚ) : Tier :=
  if 75 ≤ s then Tier.favorable
  else if 50 ≤ s then Tier.fair
  else Tier.concerning

/-- The recommendation categories, one per `append` site of `app.py`
lines 131–165, in source order. -/
inductive Rec where
  | sleepLow
  | sleepHigh
  | screenTime
  | exerciseFreq
  | exerciseDur
  | diet
  | stress
  | anxiety
  | depression
  | social
  | happiness
deriving DecidableEq

/-- The rule engine, `app.py` lines 129–165: a list built by a fixed
sequence of threshold checks, the sleep pair and the exercise pair each
an `if/elif`. -/
def recommendations (i : Inputs) : List Rec :=
  (if i.sleep_hours < 7 then [Rec.sleepLow]
   else if 9 < i.sleep_hours then [Rec.sleepHigh] else []) ++
  (if 5 < i.screen_time then [Rec.screenTime] else []) ++
  (if i.exercise_frequency < 3 then [Rec.exerciseFreq]
   else if i.exercise_duration < 30 then [Rec.exerciseDur] else []) ++
  (if i.diet_quality < 3 then [Rec.diet] else []) ++
  (if 6 < i.stress_level then [Rec.stress] else []) ++
  (if 6 < i.anxiety_level then [Rec.anxiety] else []) ++
  (if 6 < i.depression_level then [Rec.depression] else []) ++
  (if i.social_interaction < 3 then [Rec.social] else []) ++
  (if i.happiness_level < 5 then [Rec.happiness] else [])

/-- What the result section renders, `app.py` lines 167–172: each tip in
order when any fired, otherwise the single "all good" success marker. -/
inductive Advice where
  | tip (r : Rec)
  | allGood
deriving DecidableEq

/-- `app.py` lines 168–172: `if recommendations: ... else: st.success(...)`. -/
def displayedAdvice (i : Inputs) : List Advice :=
  if recommendations i ≠ [] then (recommendations i).map Advice.tip
  else [Advice.allGood]

/-- The fixed category order of the rule engine (§4.2 of the spec):
sleep low, sleep high, screen time, exercise frequency, exercise
duration, diet, stress, anxiety, depression, social, happiness. -/
def recOrder : List Rec :=
  [Rec.sleepLow, Rec.sleepHigh, Rec.screenTime, Rec.exerciseFreq,
   Rec.exerciseDur, Rec.diet, Rec.stress, Rec.anxiety, Rec.depression,
   Rec.social, Rec.happiness]

/-- When each rule fires, read off the `if/elif` chains of `app.py` lines
131–165: the `elif` arms fire exactly when the preceding `if` failed and
their own threshold holds (`9 < sleep` already implies `¬ sleep < 7`). -/
def ruleCond (r : Rec) (i : Inputs) : Prop :=
  match r with
  | Rec.sleepLow => i.sleep_hours < 7
  | Rec.sleepHigh => 9 < i.sleep_hours
  | Rec.screenTime => 5 < i.screen_time
  | Rec.exerciseFreq => i.exercise_frequency < 3
  | Rec.exerciseDur => 3 ≤ i.exercise_frequency ∧ i.exercise_duration < 30
  | Rec.diet => i.diet_quality < 3
  | Rec.stress => 6 < i.stress_level
  | Rec.anxiety => 6 < i.anxiety_level
  | Rec.depression => 6 < i.depression_level
  | Rec.social => i.social_interaction < 3
  | Rec.happiness => i.happiness_level < 5

instance (r : Rec) (i : Inputs) : Decidable (ruleCond r i) := by
  cases r <;> dsimp [ruleCond] <;> infer_instance

/-- The all-optimal input batch of spec §8: every scored feature at its
most favorable value (demographic fields arbitrary). -/
def optimalInputs : Inputs :=
  { age := 30, gender := "Other", occupation := "Student",
    sleep_hours := 8, daily_steps := 30000, diet_quality := 5,
    social_interaction := 20, exercise_frequency := 7,
    exercise_duration := 180, exercise_type := "Cardio",
    screen_time := 0, stress_level := 1, anxiety_level := 1,
    depression_level := 1, happiness_level := 10 }

/-- The all-worst input batch of spec §8: every scored feature at its
least favorable value. -/
def worstInputs : Inputs :=
  { age := 30, gender := "Other", occupation := "Student",
    sleep_hours := 0, daily_steps := 0, diet_quality := 1,
    social_interaction := 0, exercise_frequency := 0,
    exercise_duration := 0, exercise_type := "Cardio",
    screen_time := 12, stress_level := 10, anxiety_level := 10,
    depression_level := 10, happiness_level := 1 }

/-- A batch where only the exercise-frequency rule fires; its duration is
also under 30, so the duration rule would fire were it not behind the
`elif`. -/
def lowFreqInputs : Inputs :=
  { age := 30, gender := "Other", occupation := "Student",
    sleep_hours := 7.5, daily_steps := 8000, diet_quality := 4,
    social_interaction := 5, exercise_frequency := 1,
    exercise_duration := 10, exercise_type := "Cardio",
    screen_time := 3, stress_level := 3, anxiety_level := 3,
    depression_level := 3, happiness_level := 7 }

/-- `optimalInputs` with every demographic field changed and every scored
feature kept. -/
def otherDemographics : Inputs :=
  { optimalInputs with
    age := 60, gender := "Female", occupation := "Working Professional",
    exercise_type := "Yoga" }

section Helpers

/-- `clip01` always lands in the unit interval. -/
theorem clip01_mem (t : ℚ) : 0 ≤ clip01 t ∧ clip01 t ≤ 1 := by
  unfold clip01
  split_ifs <;> constructor <;> linarith

/-- `normalize_positive` always lands in the unit interval. -/
theorem normalize_positive_mem (x mn mx : ℚ) :
    0 ≤ normalize_positive x mn mx ∧ normalize_positive x mn mx ≤ 1 :=
  clip01_mem _

/-- `normalize_negative` always lands in the unit interval. -/
theorem normalize_negative_mem (x mn mx : ℚ) :
    0 ≤ normalize_negative x mn mx ∧ normalize_negative x mn mx ≤ 1 :=
  clip01_mem _

/-- The `if/elif` chain of `normalize_sleep` never reaches the implicit
`None`: it computes exactly the spec's total piecewise function. -/
theorem normalize_sleep_eq_sleepSpec (x : ℚ) :
    normalize_sleep x = some (sleepSpec x) := by
  unfold normalize_sleep sleepSpec
  by_cases h1 : x < 4 ∨ 12 < x
  · rw [if_pos h1, if_pos h1]
  · push_neg at h1
    obtain ⟨h4, h12⟩ := h1
    have hno : ¬(x < 4 ∨ 12 < x) := by push_neg; exact ⟨h4, h12⟩
    rw [if_neg hno, if_neg hno]
    by_cases h7 : x < 7
    · rw [if_pos ⟨h4, h7⟩, if_pos h7]
    · rw [if_neg (fun hc => h7 hc.2), if_neg h7]
      by_cases h9 : x ≤ 9
      · rw [if_pos ⟨not_lt.mp h7, h9⟩, if_pos h9]
      · rw [if_neg (fun hc => h9 hc.2), if_neg h9, if_pos ⟨not_le.mp h9, h12⟩]

/-- The sleep score is always in the unit interval. -/
theorem sleepSpec_mem (x : ℚ) : 0 ≤ sleepSpec x ∧ sleepSpec x ≤ 1 := by
  unfold sleepSpec
  split_ifs with h1 h2 h3
  · constructor <;> norm_num
  · push_neg at h1
    constructor <;> [linarith [h1.1]; linarith]
  · constructor <;> norm_num
  · push_neg at h1 h3
    constructor <;> [linarith [h1.2]; linarith]

theorem weight_sleep : weight "Sleep_Hours" = 1/10 := by
  simp [weight, FEATURE_WEIGHTS, List.lookup]; norm_num

theorem weight_steps : weight "Daily_Steps" = 1/10 := by
  simp [weight, FEATURE_WEIGHTS, List.lookup]; norm_num

theorem weight_exfreq : weight "Exercise_Frequency" = 1/10 := by
  simp [weight, FEATURE_WEIGHTS, List.lookup]; norm_num

theorem weight_exdur : weight "Exercise_Duration" = 1/10 := by
  simp [weight, FEATURE_WEIGHTS, List.lookup]; norm_num

theorem weight_diet : weight "Diet_Quality" = 1/10 := by
  simp [weight, FEATURE_WEIGHTS, List.lookup]; norm_num

theorem weight_social : weight "Social_Interaction" = 1/10 := by
  simp [weight, FEATURE_WEIGHTS, List.lookup]; norm_num

theorem weight_happy : weight "Happiness_Level" = 1/10 := by
  simp [weight, FEATURE_WEIGHTS, List.lookup]; norm_num

theorem weight_screen : weight "Screen_Time_Hours" = 1/10 := by
  simp [weight, FEATURE_WEIGHTS, List.lookup]; norm_num

theorem weight_stress : weight "Stress_Level" = 1/10 := by
  simp [weight, FEATURE_WEIGHTS, List.lookup]; norm_num

theorem weight_anxiety : weight "Anxiety_Level" = 1/20 := by
  simp [weight, FEATURE_WEIGHTS, List.lookup]; norm_num

theorem weight_depression : weight "Depression_Level" = 1/20 := by
  simp [weight, FEATURE_WEIGHTS, List.lookup]; norm_num

/-- An `if/elif` pair over singletons splits into two independent guarded
segments once the second guard is rephrased to include the first's
failure. -/
theorem ite_elif_append {α : Type} (p q q' : Prop) [Decidable p] [Decidable q]
    [Decidable q'] (x y : α) (h1 : q' → ¬ p) (h2 : ¬ p → (q ↔ q')) :
    (if p then [x] else if q then [y] else []) =
    (if p then [x] else []) ++ (if q' then [y] else []) := by
  by_cases hp : p
  · rw [if_pos hp, if_pos hp, if_neg (fun hq => h1 hq hp), List.append_nil]
  · rw [if_neg hp, if_neg hp, List.nil_append, if_congr (h2 hp) rfl rfl]

/-- The rule engine is the filter of the fixed category order by the
per-rule firing conditions. -/
theorem recommendations_eq_filter (i : Inputs) :
    recommendations i = recOrder.filter (fun r => decide (ruleCond r i)) := by
  have hsleep := ite_elif_append (i.sleep_hours < 7) (9 < i.sleep_hours)
    (9 < i.sleep_hours) Rec.sleepLow Rec.sleepHigh
    (fun h9 h7 => by linarith) (fun _ => Iff.rfl)
  have hex := ite_elif_append (i.exercise_frequency < 3) (i.exercise_duration < 30)
    (3 ≤ i.exercise_frequency ∧ i.exercise_duration < 30) Rec.exerciseFreq
    Rec.exerciseDur (fun h hlt => by linarith [h.1])
    (fun h3 => ⟨fun hd => ⟨not_lt.mp h3, hd⟩, fun h => h.2⟩)
  rw [recommendations, hsleep, hex]
  show _ = List.filter _ ([Rec.sleepLow] ++ [Rec.sleepHigh] ++ [Rec.screenTime] ++
    [Rec.exerciseFreq] ++ [Rec.exerciseDur] ++ [Rec.diet] ++ [Rec.stress] ++
    [Rec.anxiety] ++ [Rec.depression] ++ [Rec.social] ++ [Rec.happiness])
  simp only [List.filter_append, List.filter_singleton, Bool.cond_decide, ruleCond,
    List.append_assoc]

/-- Every category appears in the fixed order list. -/
theorem mem_recOrder (r : Rec) : r ∈ recOrder := by
  cases r <;> simp [recOrder]

/-- The fixed order list has no repeated category. -/
theorem recOrder_nodup : recOrder.Nodup := by decide

/-- A category is in the output exactly when its rule fires. -/
theorem mem_recommendations (i : Inputs) (r : Rec) :
    r ∈ recommendations i ↔ ruleCond r i := by
  rw [recommendations_eq_filter, List.mem_filter]
  simp [mem_recOrder]

end Helpers

section Claims

/-- C1: for in-domain inputs the composite score exists and lies in
[0,100]; the all-optimal batch scores exactly 100 and the all-worst batch
exactly 0. -/
theorem mhs_score_in_range_and_extremes (i : Inputs)
    (hb1 : 0 ≤ i.sleep_hours) (hb2 : i.sleep_hours ≤ 12)
    (hb3 : 0 ≤ i.daily_steps) (hb4 : i.daily_steps ≤ 30000)
    (hb5 : 0 ≤ i.exercise_frequency) (hb6 : i.exercise_frequency ≤ 7)
    (hb7 : 0 ≤ i.exercise_duration) (hb8 : i.exercise_duration ≤ 180)
    (hb9 : 1 ≤ i.diet_quality) (hb10 : i.diet_quality ≤ 5)
    (hb11 : 0 ≤ i.social_interaction) (hb12 : i.social_interaction ≤ 20)
    (hb13 : 1 ≤ i.happiness_level) (hb14 : i.happiness_level ≤ 10)
    (hb15 : 0 ≤ i.screen_time) (hb16 : i.screen_time ≤ 12)
    (hb17 : 1 ≤ i.stress_level) (hb18 : i.stress_level ≤ 10)
    (hb19 : 1 ≤ i.anxiety_level) (hb20 : i.anxiety_level ≤ 10)
    (hb21 : 1 ≤ i.depression_level) (hb22 : i.depression_level ≤ 10) :
    (∃ v, mhs_score i = some v ∧ 0 ≤ v ∧ v ≤ 100) ∧
    mhs_score optimalInputs = some 100 ∧ mhs_score worstInputs = some 0 := by
  refine ⟨?_, ?_, ?_⟩
  · unfold mhs_score
    rw [normalize_sleep_eq_sleepSpec]
    dsimp only
    rw [weight_sleep, weight_steps, weight_exfreq, weight_exdur, weight_diet,
      weight_social, weight_happy, weight_screen, weight_stress,
      weight_anxiety, weight_depression]
    refine ⟨_, rfl, ?_, ?_⟩
    · have b0 := sleepSpec_mem i.sleep_hours
      have b1 := normalize_positive_mem i.daily_steps 0 30000
      have b2 := normalize_positive_mem i.exercise_frequency 0 7
      have b3 := normalize_positive_mem i.exercise_duration 0 180
      have b4 := normalize_positive_mem i.diet_quality 1 5
      have b5 := normalize_positive_mem i.social_interaction 0 20
      have b6 := normalize_positive_mem i.happiness_level 1 10
      have b7 := normalize_negative_mem i.screen_time 0 12
      have b8 := normalize_negative_mem i.stress_level 1 10
      have b9 := normalize_negative_mem i.anxiety_level 1 10
      have b10 := normalize_negative_mem i.depression_level 1 10
      linarith [b0.1, b1.1, b2.1, b3.1, b4.1, b5.1, b6.1, b7.1, b8.1, b9.1,
        b10.1]
    · have b0 := sleepSpec_mem i.sleep_hours
      have b1 := normalize_positive_mem i.daily_steps 0 30000
      have b2 := normalize_positive_mem i.exercise_frequency 0 7
      have b3 := normalize_positive_mem i.exercise_duration 0 180
      have b4 := normalize_positive_mem i.diet_quality 1 5
      have b5 := normalize_positive_mem i.social_interaction 0 20
      have b6 := normalize_positive_mem i.happiness_level 1 10
      have b7 := normalize_negative_mem i.screen_time 0 12
      have b8 := normalize_negative_mem i.stress_level 1 10
      have b9 := normalize_negative_mem i.anxiety_level 1 10
      have b10 := normalize_negative_mem i.depression_level 1 10
      linarith [b0.2, b1.2, b2.2, b3.2, b4.2, b5.2, b6.2, b7.2, b8.2, b9.2,
        b10.2]
  · norm_num [mhs_score, normalize_sleep, normalize_positive,
      normalize_negative, clip01, optimalInputs, weight_sleep, weight_steps,
      weight_exfreq, weight_exdur, weight_diet, weight_social, weight_happy,
      weight_screen, weight_stress, weight_anxiety, weight_depression]
  · norm_num [mhs_score, normalize_sleep, normalize_positive,
      normalize_negative, clip01, worstInputs, weight_sleep, weight_steps,
      weight_exfreq, weight_exdur, weight_diet, weight_social, weight_happy,
      weight_screen, weight_stress, weight_anxiety, weight_depression]

/-- C1 witness: the theorem applied to the all-optimal batch, whose fields
are all in the declared ranges. -/
theorem mhs_score_in_range_and_extremes_witness :
    (∃ v, mhs_score optimalInputs = some v ∧ 0 ≤ v ∧ v ≤ 100) ∧
    mhs_score optimalInputs = some 100 ∧ mhs_score worstInputs = some 0 :=
  mhs_score_in_range_and_extremes optimalInputs
    (by norm_num [optimalInputs]) (by norm_num [optimalInputs])
    (by norm_num [optimalInputs]) (by norm_num [optimalInputs])
    (by norm_num [optimalInputs]) (by norm_num [optimalInputs])
    (by norm_num [optimalInputs]) (by norm_num [optimalInputs])
    (by norm_num [optimalInputs]) (by norm_num [optimalInputs])
    (by norm_num [optimalInputs]) (by norm_num [optimalInputs])
    (by norm_num [optimalInputs]) (by norm_num [optimalInputs])
    (by norm_num [optimalInputs]) (by norm_num [optimalInputs])
    (by norm_num [optimalInputs]) (by norm_num [optimalInputs])
    (by norm_num [optimalInputs]) (by norm_num [optimalInputs])
    (by norm_num [optimalInputs]) (by norm_num [optimalInputs])

/-- C2: `normalize_sleep` returns a value for every rational input, equal
to the spec's inclusive-boundary piecewise function, with the spec's seven
point checks. -/
theorem normalize_sleep_total_piecewise :
    (∀ x : ℚ, normalize_sleep x = some (sleepSpec x)) ∧
    normalize_sleep 4 = some 0 ∧ normalize_sleep 7 = some 1 ∧
    normalize_sleep 9 = some 1 ∧ normalize_sleep 12 = some 0 ∧
    normalize_sleep 3.9 = some 0 ∧ normalize_sleep 12.1 = some 0 ∧
    normalize_sleep 5.5 = some 0.5 := by
  refine ⟨normalize_sleep_eq_sleepSpec, ?_, ?_, ?_, ?_, ?_, ?_, ?_⟩ <;>
    norm_num [normalize_sleep]

/-- C3: the eleven weights sum to exactly 1 and each lies in [0,1]. -/
theorem feature_weights_convex :
    (FEATURE_WEIGHTS.map Prod.snd).sum = 1 ∧
    ∀ p ∈ FEATURE_WEIGHTS, 0 ≤ p.2 ∧ p.2 ≤ 1 := by
  constructor
  · simp [FEATURE_WEIGHTS]; norm_num
  · intro p hp
    fin_cases hp <;> constructor <;> norm_num

/-- C4: the rule engine filters the fixed category order by the firing
conditions — one recommendation per matching rule, no duplicates, output
in the fixed order — and when nothing fires the displayed advice is the
single "all good" marker. -/
theorem recommendations_rule_engine (i : Inputs) :
    recommendations i = recOrder.filter (fun r => decide (ruleCond r i)) ∧
    (∀ r : Rec, r ∈ recommendations i ↔ ruleCond r i) ∧
    (recommendations i).Sublist recOrder ∧
    (recommendations i).Nodup ∧
    displayedAdvice i =
      (if recommendations i = [] then [Advice.allGood]
       else (recommendations i).map Advice.tip) := by
  refine ⟨recommendations_eq_filter i, mem_recommendations i, ?_, ?_, ?_⟩
  · rw [recommendations_eq_filter]
    exact List.filter_sublist _
  · rw [recommendations_eq_filter]
    exact recOrder_nodup.filter _
  · by_cases h : recommendations i = [] <;> simp [displayedAdvice, h]

/-- C5: the exercise-duration recommendation never appears together with
the exercise-frequency recommendation. -/
theorem exercise_duration_excluded_by_frequency (i : Inputs)
    (h : Rec.exerciseFreq ∈ recommendations i) :
    Rec.exerciseDur ∉ recommendations i := by
  have hfreq : i.exercise_frequency < 3 := by
    simpa [ruleCond] using (mem_recommendations i Rec.exerciseFreq).mp h
  intro hc
  have hdur : 3 ≤ i.exercise_frequency ∧ i.exercise_duration < 30 := by
    simpa [ruleCond] using (mem_recommendations i Rec.exerciseDur).mp hc
  linarith [hdur.1]

/-- C5 witness: a batch whose exercise frequency is 1 (so the frequency
rule fires) and whose duration is 10 (under the duration threshold). -/
theorem exercise_duration_excluded_by_frequency_witness :
    Rec.exerciseFreq ∈ recommendations lowFreqInputs ∧
    Rec.exerciseDur ∉ recommendations lowFreqInputs :=
  have hmem : Rec.exerciseFreq ∈ recommendations lowFreqInputs := by
    norm_num [recommendations, lowFreqInputs]
  ⟨hmem, exercise_duration_excluded_by_frequency lowFreqInputs hmem⟩

/-- C6: the tier bands partition the scores — every score at least 75 is
favorable, every score in [50,75) is fair, every score below 50 is
concerning, and exactly one band applies to each score. -/
theorem tier_nonoverlapping_exhaustive (s : ℚ) :
    (tier s = Tier.favorable ↔ 75 ≤ s) ∧
    (tier s = Tier.fair ↔ 50 ≤ s ∧ s < 75) ∧
    (tier s = Tier.concerning ↔ s < 50) := by
  unfold tier
  split_ifs with h75 h50
  · exact ⟨⟨fun _ => h75, fun _ => rfl⟩,
      ⟨fun h => (nomatch h), fun h => absurd h75 (not_le.mpr h.2)⟩,
      ⟨fun h => (nomatch h),
       fun h => absurd h75 (not_le.mpr (by linarith))⟩⟩
  · exact ⟨⟨fun h => (nomatch h), fun h => absurd h h75⟩,
      ⟨fun _ => ⟨h50, not_le.mp h75⟩, fun _ => rfl⟩,
      ⟨fun h => (nomatch h), fun h => absurd h50 (not_le.mpr h)⟩⟩
  · exact ⟨⟨fun h => (nomatch h), fun h => absurd h h75⟩,
      ⟨fun h => (nomatch h), fun h => absurd h.1 h50⟩,
      ⟨fun _ => not_le.mp h50, fun _ => rfl⟩⟩

/-- C7: with any fixed bounds `mn < mx`, both linear normalizers clamp
every rational input into [0,1]; neither has an error case. -/
theorem normalize_clamped_unit_interval (x mn mx : ℚ) (h : mn < mx) :
    0 ≤ normalize_positive x mn mx ∧ normalize_positive x mn mx ≤ 1 ∧
    0 ≤ normalize_negative x mn mx ∧ normalize_negative x mn mx ≤ 1 :=
  ⟨(normalize_positive_mem x mn mx).1, (normalize_positive_mem x mn mx).2,
   (normalize_negative_mem x mn mx).1, (normalize_negative_mem x mn mx).2⟩

/-- C7 witness: the theorem at `x = 1000` far outside the bounds 0..10. -/
theorem normalize_clamped_unit_interval_witness :
    0 ≤ normalize_positive 1000 0 10 ∧ normalize_positive 1000 0 10 ≤ 1 ∧
    0 ≤ normalize_negative 1000 0 10 ∧ normalize_negative 1000 0 10 ≤ 1 :=
  normalize_clamped_unit_interval 1000 0 10 (by norm_num)

/-- C8: at the domain endpoints `normalize_positive` is 0 at `mn` and 1
at `mx`, and `normalize_negative` is the mirror. -/
theorem normalize_endpoint_values (mn mx : ℚ) (h : mn < mx) :
    normalize_positive mn mn mx = 0 ∧ normalize_positive mx mn mx = 1 ∧
    normalize_negative mn mn mx = 1 ∧ normalize_negative mx mn mx = 0 := by
  have hne : mx - mn ≠ 0 := sub_ne_zero.mpr (ne_of_gt h)
  unfold normalize_positive normalize_negative
  rw [sub_self, zero_div, div_self hne]
  norm_num [clip01]

/-- C8 witness: the theorem at the steps bounds 0..30000. -/
theorem normalize_endpoint_values_witness :
    normalize_positive 0 0 30000 = 0 ∧ normalize_positive 30000 0 30000 = 1 ∧
    normalize_negative 0 0 30000 = 1 ∧ normalize_negative 30000 0 30000 = 0 :=
  normalize_endpoint_values 0 30000 (by norm_num)

/-- C9: the two clamped ramps are exact complements for every rational
input, also outside [mn, mx]. -/
theorem normalize_complement_identity (x mn mx : ℚ) (h : mn < mx) :
    normalize_positive x mn mx + normalize_negative x mn mx = 1 := by
  unfold normalize_positive normalize_negative clip01
  split_ifs <;> linarith

/-- C9 witness: the theorem at `x = -5` below the bounds 1..10. -/
theorem normalize_complement_identity_witness :
    normalize_positive (-5) 1 10 + normalize_negative (-5) 1 10 = 1 :=
  normalize_complement_identity (-5) 1 10 (by norm_num)

/-- C10: two batches that agree on the eleven scored features, whatever
their age, gender, occupation and exercise type, get the same composite
score, the same recommendation sequence and the same displayed advice. -/
theorem demographics_noninterference (i j : Inputs)
    (hsleep : i.sleep_hours = j.sleep_hours)
    (hsteps : i.daily_steps = j.daily_steps)
    (hdiet : i.diet_quality = j.diet_quality)
    (hsocial : i.social_interaction = j.social_interaction)
    (hexf : i.exercise_frequency = j.exercise_frequency)
    (hexd : i.exercise_duration = j.exercise_duration)
    (hscreen : i.screen_time = j.screen_time)
    (hstress : i.stress_level = j.stress_level)
    (hanx : i.anxiety_level = j.anxiety_level)
    (hdep : i.depression_level = j.depression_level)
    (hhappy : i.happiness_level = j.happiness_level) :
    mhs_score i = mhs_score j ∧ recommendations i = recommendations j ∧
    displayedAdvice i = displayedAdvice j := by
  have hrec : recommendations i = recommendations j := by
    unfold recommendations
    rw [hsleep, hscreen, hexf, hexd, hdiet, hstress, hanx, hdep, hsocial,
      hhappy]
  refine ⟨?_, hrec, ?_⟩
  · unfold mhs_score
    rw [hsleep, hsteps, hexf, hexd, hdiet, hsocial, hhappy, hscreen, hstress,
      hanx, hdep]
  · unfold displayedAdvice
    rw [hrec]

/-- C10 witness: the all-optimal batch against the same batch with all
four demographic fields changed. -/
theorem demographics_noninterference_witness :
    mhs_score optimalInputs = mhs_score otherDemographics ∧
    recommendations optimalInputs = recommendations otherDemographics ∧
    displayedAdvice optimalInputs = displayedAdvice otherDemographics :=
  demographics_noninterference optimalInputs otherDemographics
    rfl rfl rfl rfl rfl rfl rfl rfl rfl rfl rfl

end Claims

end MindBalance
